import Mathlib

/-!
Verification of the MT5 trading bots' position risk-management logic.

The definitions below are shallow embeddings of the Python functions in
`bot_progressive_sl.py`, `bot_enhanced.py` and `bot_continuous_monitor.py`.
Prices, profits and configuration amounts are modelled as rationals; the
broker (MetaTrader 5 gateway) is modelled by passing the observed position
snapshot fields (entry price, current price, profit, current stop-loss) and
the success of a stop-modification request explicitly.
-/

namespace MT5

/-- Position direction (`mt5.POSITION_TYPE_BUY` / `mt5.POSITION_TYPE_SELL`). -/
inductive Dir where
  | buy
  | sell
deriving DecidableEq, Repr

/-- Instrument kind, as distinguished by the bots' symbol tests
(`"XAU" in symbol`, `"BTC" in symbol`, otherwise treated as forex). -/
inductive SymKind where
  | xau
  | btc
  | fx
deriving DecidableEq, Repr

/-- `PROFIT_THRESHOLD = 20.0` from `bot_progressive_sl.py`. -/
def PROFIT_THRESHOLD : ℚ := 20

/-- Embedding of `calculate_progressive_sl(position, current_profit)` from
`bot_progressive_sl.py` (lines 86-147).  The position is given by its
direction and entry price (`position.price_open`); `currentPrice` is the
relevant side of the tick (`bid` for BUY, `ask` for SELL).  A return value
of `0` means "no stop-loss" (the code returns `0` in every guard branch).
The broker-availability guards (`symbol_info` / `symbol_info_tick` being
`None`) are modelled away: the snapshot fields are given directly. -/
def calculate_progressive_sl (d : Dir) (entry currentPrice currentProfit : ℚ) : ℚ :=
  let profit_level : ℚ := ((currentProfit / PROFIT_THRESHOLD).floor : ℤ) * PROFIT_THRESHOLD
  if profit_level < PROFIT_THRESHOLD then 0
  else
    let locked_profit := max 0 ((profit_level - PROFIT_THRESHOLD) / 2)
    let price_movement := |currentPrice - entry|
    if price_movement = 0 then 0
    else
      let profit_per_point := if 0 < price_movement then currentProfit / price_movement else 0
      let points_to_lock := if 0 < profit_per_point then locked_profit / profit_per_point else 0
      match d with
      | .buy => if profit_level = PROFIT_THRESHOLD then entry else entry + points_to_lock
      | .sell => if profit_level = PROFIT_THRESHOLD then entry else entry - points_to_lock

/-- Python's `round` ties-to-even on an exact rational, as an integer result. -/
def roundHalfEven (x : ℚ) : ℤ :=
  let f := x.floor
  let frac := x - (f : ℚ)
  if frac < 1/2 then f
  else if 1/2 < frac then f + 1
  else if f % 2 = 0 then f else f + 1

/-- `round(x, 1)`: round to one decimal place, ties to even. -/
def round1 (x : ℚ) : ℚ := ((roundHalfEven (10 * x) : ℤ) : ℚ) / 10

/-- The `dynamic_lot_sizing` sub-dictionary of `RISK_MANAGEMENT_CONFIG`. -/
structure LotConfig where
  enabled : Bool
  base_lot_size : ℚ
  starting_capital : ℚ
  capital_increment : ℚ
  lot_increment : ℚ
  min_lot_size : ℚ
deriving DecidableEq, Repr

/-- The repository's configuration values from `enhanced_config_btc_xau.py`
(lines 183-190). -/
def repoLotConfig : LotConfig :=
  { enabled := true
    base_lot_size := 1
    starting_capital := 10000
    capital_increment := 5000
    lot_increment := 1/2
    min_lot_size := 1 }

/-- Embedding of `calculate_lot_size(symbol, account_equity)` from
`bot_progressive_sl.py` (lines 601-619).  The symbol argument is unused by
the code (the config is global), so it is dropped. -/
def calculate_lot_size (cfg : LotConfig) (account_equity : ℚ) : ℚ :=
  if cfg.enabled = false then cfg.base_lot_size
  else
    let capital_change := account_equity - cfg.starting_capital
    let additional_lots := capital_change / cfg.capital_increment * cfg.lot_increment
    let final_lot_size := cfg.base_lot_size + additional_lots
    let final_lot_size := max cfg.min_lot_size final_lot_size
    round1 final_lot_size

/-- The position-sizer formula exactly as the specification words it:
`volume = max(minLot, baseLot + ((equity - startingCapital) / capitalIncrement) * lotIncrement)`,
rounded to one decimal. -/
def sizerSpecFormula (cfg : LotConfig) (equity : ℚ) : ℚ :=
  round1 (max cfg.min_lot_size
    (cfg.base_lot_size + (equity - cfg.starting_capital) / cfg.capital_increment * cfg.lot_increment))

/-- Breakeven buffer price offset from `manage_position_sl_elevation`
(`bot_enhanced.py` lines 651-660): `buffer_pips * 0.01` for a symbol
containing "XAU", `buffer_points * 1.0` for "BTC", else the hardcoded
`0.0002`.  `bufXauPips` and `bufBtcPts` are the `buffer_pips` config
entries (both `2` in `enhanced_config_btc_xau.py`). -/
def breakevenBuffer (bufXauPips bufBtcPts : ℚ) : SymKind → ℚ
  | .xau => bufXauPips * (1/100)
  | .btc => bufBtcPts * 1
  | .fx => 2/10000

/-- The per-position decision of `manage_position_sl_elevation`
(`bot_enhanced.py` lines 639-689): if the position's profit has reached the
configured threshold and its stop-loss is unset (`0`) or still on the
unfavorable side of the entry price, request a modification to
`entry ± buffer`; otherwise do nothing.  `some x` models the gateway call
`modify_position_sl(ticket, x, tp)`, `none` models no gateway call. -/
def tryElevate (threshold bufXauPips bufBtcPts : ℚ) (k : SymKind) (d : Dir)
    (entry profit sl : ℚ) : Option ℚ :=
  if threshold ≤ profit then
    let buffer := breakevenBuffer bufXauPips bufBtcPts k
    match d with
    | .buy => if sl = 0 ∨ sl < entry then some (entry + buffer) else none
    | .sell => if sl = 0 ∨ entry < sl then some (entry - buffer) else none
  else none

/-- The trailing candidate of `manage_trailing_stops` (`bot_enhanced.py`
lines 811-829): `current_price - trail_distance_price` for BUY,
`current_price + trail_distance_price` for SELL. -/
def trailCandidate (d : Dir) (price dist : ℚ) : ℚ :=
  match d with
  | .buy => price - dist
  | .sell => price + dist

/-- The per-evaluation decision of `manage_trailing_stops` for an armed
position (`bot_enhanced.py` lines 809-839): the candidate is applied only
when it is on the favorable side of the current stop-loss AND at least one
step away from it; in addition the code's final `if new_sl:` test skips a
candidate equal to `0` (Python falsiness of `0.0`).  `some x` models a call
to `modify_trailing_sl` with `x`; `none` models no call. -/
def trailDecide (d : Dir) (sl price dist step : ℚ) : Option ℚ :=
  match d with
  | .buy =>
    let p := price - dist
    if sl < p ∧ step ≤ p - sl ∧ p ≠ 0 then some p else none
  | .sell =>
    let p := price + dist
    if p < sl ∧ step ≤ sl - p ∧ p ≠ 0 then some p else none

/-- A run of trailing evaluations on one armed ticket.  Each observation is
the market price at that evaluation together with whether the gateway
accepted the modification request; the position's stop-loss field carries
the last applied value between evaluations.  The result is the list of
stop-loss values actually applied, in order. -/
def trailRun (d : Dir) (dist step : ℚ) : ℚ → List (ℚ × Bool) → List ℚ
  | _, [] => []
  | sl, (price, ok) :: rest =>
    match trailDecide d sl price dist step with
    | some nsl =>
      if ok then nsl :: trailRun d dist step nsl rest
      else trailRun d dist step sl rest
    | none => trailRun d dist step sl rest

/-- Signal action returned by the oracle (`get_ai_signal`). -/
inductive Action where
  | buy
  | sell
  | noTrade
deriving DecidableEq, Repr

/-- A signal snapshot as consumed by the reversal check: the `action` and
`confidence` fields of the dictionary returned by `get_ai_signal` (which
degrades any oracle failure to `NO_TRADE, confidence 0`). -/
structure Signal where
  action : Action
  confidence : ℚ
deriving DecidableEq, Repr

/-- The action corresponding to a position's direction (`current_type`). -/
def dirAction : Dir → Action
  | .buy => Action.buy
  | .sell => Action.sell

/-- The per-position reversal decision of `monitor_positions`
(`bot_continuous_monitor.py` lines 382-397): close the position exactly
when the signal's action is BUY or SELL, its confidence reaches
`MIN_CONFIDENCE`, and the action differs from the position's direction.
The function issues only a close; it never touches the position's SL/TP. -/
def checkReversal (minConf : ℚ) (d : Dir) (s : Signal) : Bool :=
  decide (s.action = Action.buy ∨ s.action = Action.sell)
    && decide (minConf ≤ s.confidence)
    && decide (dirAction d ≠ s.action)

/-- One observation of a position by the profit-monitoring loop
(`monitor_profit_positions`): the snapshot's profit, the tick price on the
position's side, the snapshot's stop-loss field, and whether a
stop-modification request issued this iteration would succeed. -/
structure Obs where
  profit : ℚ
  price : ℚ
  sl : ℚ
  modifyOk : Bool
deriving DecidableEq, Repr

/-- One iteration of `monitor_profit_positions` (`bot_progressive_sl.py`
lines 183-243) for a single still-open ticket.  The state is the ticket's
entry in `position_sl_levels` (`none` when absent; reads default to `0`).
If the profit has reached a new milestone and the freshly computed
progressive stop-loss improves on the current one (and the gateway call
succeeds), the stored level is raised to the milestone; if the profit is
negative and the ticket is tracked, the tracking entry is deleted. -/
def profitMonitorStep (d : Dir) (entry : ℚ) (o : Obs) (st : Option ℚ) : Option ℚ :=
  if PROFIT_THRESHOLD ≤ o.profit then
    let profit_level : ℚ := ((o.profit / PROFIT_THRESHOLD).floor : ℤ) * PROFIT_THRESHOLD
    let last_level := st.getD 0
    if last_level < profit_level then
      let current_sl := o.sl
      let new_sl := calculate_progressive_sl d entry o.price o.profit
      let should_modify : Bool :=
        match d with
        | .buy => decide (current_sl < new_sl)
        | .sell => decide (current_sl = 0 ∨ new_sl < current_sl)
      if should_modify = true ∧ new_sl ≠ 0 ∧ o.modifyOk = true then some profit_level else st
    else st
  else if st.isSome ∧ o.profit < 0 then none
  else st

/-- A run of profit-monitoring iterations on one ticket that stays in the
gateway's open-position snapshot throughout. -/
def profitMonitorRun (d : Dir) (entry : ℚ) (st : Option ℚ) : List Obs → Option ℚ
  | [] => st
  | o :: rest => profitMonitorRun d entry (profitMonitorStep d entry o st) rest

/-- Sign of the protective stop-loss offset: `+1` for BUY, `-1` for SELL. -/
def dirSign : Dir → ℚ
  | .buy => 1
  | .sell => -1

/-- The current stop-loss is on the unfavorable side of the entry price:
below entry for BUY, above entry for SELL. -/
def unfavorableSide : Dir → ℚ → ℚ → Prop
  | .buy, entry, sl => sl < entry
  | .sell, entry, sl => entry < sl

instance (d : Dir) (entry sl : ℚ) : Decidable (unfavorableSide d entry sl) :=
  match d with
  | .buy => inferInstanceAs (Decidable (sl < entry))
  | .sell => inferInstanceAs (Decidable (entry < sl))

/-- The candidate stop-loss `c` improves on the current stop-loss `sl` by at
least `step` in the profit-protecting direction. -/
def favorableBy : Dir → ℚ → ℚ → ℚ → Prop
  | .buy, sl, c, step => step ≤ c - sl
  | .sell, sl, c, step => step ≤ sl - c

instance (d : Dir) (sl c step : ℚ) : Decidable (favorableBy d sl c step) :=
  match d with
  | .buy => inferInstanceAs (Decidable (step ≤ c - sl))
  | .sell => inferInstanceAs (Decidable (step ≤ sl - c))

theorem rat_floor_eq_floor (q : ℚ) : q.floor = ⌊q⌋ := by
  rw [Rat.floor_def', Rat.floor_def]

/-- C1 counterexample: with a BUY position at entry 100, observed price 100
and observed profit 20, the milestone level equals the profit threshold, so
the claim demands a stop-loss of exactly the entry price (100); the code
instead hits the zero-displacement guard first and yields no stop-loss (its
`0` marker), and `0 ≠ 100`. -/
theorem progressive_sl_level_eq_threshold_cex :
    ((((20 : ℚ) / PROFIT_THRESHOLD).floor : ℚ) * PROFIT_THRESHOLD = PROFIT_THRESHOLD) ∧
    calculate_progressive_sl Dir.buy 100 100 20 = 0 ∧
    (0 : ℚ) ≠ 100 := by
  refine ⟨?_, ?_, by norm_num⟩
  · rw [rat_floor_eq_floor]
    norm_num [PROFIT_THRESHOLD]
  · simp only [calculate_progressive_sl, PROFIT_THRESHOLD, rat_floor_eq_floor]
    norm_num

/-- C1 (amended): the progressive stop-loss ladder of
`calculate_progressive_sl`, with the zero-displacement guard applying
before the milestone branch.  With
`level = floor(currentProfit / profitThreshold) * profitThreshold`:
no stop-loss when `level < profitThreshold`; no stop-loss whenever the
price displacement is zero (including at `level = profitThreshold`);
exactly the entry price when `level = profitThreshold` and the displacement
is nonzero; and `entry ± ((level - profitThreshold) / 2) / (currentProfit /
|currentPrice - entryPrice|)` (sign by direction) when
`level > profitThreshold` and the displacement is nonzero. -/
theorem progressive_sl_ladder (d : Dir) (entry price profit : ℚ) :
    ((((profit / PROFIT_THRESHOLD).floor : ℚ) * PROFIT_THRESHOLD < PROFIT_THRESHOLD →
      calculate_progressive_sl d entry price profit = 0) ∧
    (|price - entry| = 0 → calculate_progressive_sl d entry price profit = 0) ∧
    ((((profit / PROFIT_THRESHOLD).floor : ℚ) * PROFIT_THRESHOLD = PROFIT_THRESHOLD) →
      |price - entry| ≠ 0 → calculate_progressive_sl d entry price profit = entry) ∧
    (PROFIT_THRESHOLD < (((profit / PROFIT_THRESHOLD).floor : ℚ) * PROFIT_THRESHOLD) →
      |price - entry| ≠ 0 →
      calculate_progressive_sl d entry price profit =
        entry + dirSign d *
          (((((profit / PROFIT_THRESHOLD).floor : ℚ) * PROFIT_THRESHOLD - PROFIT_THRESHOLD) / 2) /
            (profit / |price - entry|)))) := by
  have hT : (0 : ℚ) < PROFIT_THRESHOLD := by norm_num [PROFIT_THRESHOLD]
  refine ⟨fun h => ?_, fun h => ?_, fun h hm => ?_, fun h hm => ?_⟩
  · simp only [calculate_progressive_sl]
    rw [if_pos h]
  · simp only [calculate_progressive_sl]
    by_cases h1 : (((profit / PROFIT_THRESHOLD).floor : ℚ) * PROFIT_THRESHOLD < PROFIT_THRESHOLD)
    · rw [if_pos h1]
    · rw [if_neg h1, if_pos h]
  · cases d
    all_goals
      simp only [calculate_progressive_sl]
      rw [if_neg (not_lt.mpr h.ge), if_neg hm, if_pos h]
  · have hpm : 0 < |price - entry| := lt_of_le_of_ne (abs_nonneg _) (Ne.symm hm)
    have hk : (1 : ℚ) < ((profit / PROFIT_THRESHOLD).floor : ℚ) :=
      (lt_mul_iff_one_lt_left hT).mp h
    have hfl : (((profit / PROFIT_THRESHOLD).floor : ℚ)) ≤ profit / PROFIT_THRESHOLD := by
      rw [rat_floor_eq_floor]
      exact Int.floor_le _
    have hprofit : 0 < profit := by
      have h1 : (1 : ℚ) < profit / PROFIT_THRESHOLD := lt_of_lt_of_le hk hfl
      have := (one_lt_div hT).mp h1
      linarith
    have hppp : 0 < profit / |price - entry| := div_pos hprofit hpm
    have hmax : max (0 : ℚ)
        ((((profit / PROFIT_THRESHOLD).floor : ℚ) * PROFIT_THRESHOLD - PROFIT_THRESHOLD) / 2) =
        (((profit / PROFIT_THRESHOLD).floor : ℚ) * PROFIT_THRESHOLD - PROFIT_THRESHOLD) / 2 :=
      max_eq_right (by linarith)
    cases d
    all_goals
      simp only [calculate_progressive_sl]
      rw [if_neg (not_lt.mpr h.le), if_neg hm, if_pos hpm, if_pos hppp, hmax,
        if_neg (ne_of_gt h)]
      simp only [dirSign]
      ring

/-- Witness for C1 (amended) at a BUY position with entry 100, price 102,
profit 45: the milestone level is 40, the displacement 2, and the resulting
stop-loss locks 10 at the observed profit-per-point 45/2, giving 100 + 4/9. -/
theorem progressive_sl_ladder_witness :
    calculate_progressive_sl Dir.buy 100 102 45 = 100 + 4/9 := by
  have h := (progressive_sl_ladder Dir.buy 100 102 45).2.2.2
    (by rw [rat_floor_eq_floor]; norm_num [PROFIT_THRESHOLD])
    (by norm_num)
  rw [h, rat_floor_eq_floor]
  norm_num [dirSign, PROFIT_THRESHOLD]

theorem trailDecide_buy_lt {sl price dist step nsl : ℚ}
    (h : trailDecide Dir.buy sl price dist step = some nsl) : sl < nsl := by
  simp only [trailDecide] at h
  split_ifs at h with hc
  exact (Option.some_inj.mp h) ▸ hc.1

theorem trailDecide_sell_gt {sl price dist step nsl : ℚ}
    (h : trailDecide Dir.sell sl price dist step = some nsl) : nsl < sl := by
  simp only [trailDecide] at h
  split_ifs at h with hc
  exact (Option.some_inj.mp h) ▸ hc.1

theorem trailRun_buy_chain (dist step : ℚ) (obs : List (ℚ × Bool)) :
    ∀ sl0, List.Chain (· < ·) sl0 (trailRun Dir.buy dist step sl0 obs) := by
  induction obs with
  | nil => exact fun sl0 => List.Chain.nil
  | cons o rest ih =>
    intro sl0
    obtain ⟨price, ok⟩ := o
    simp only [trailRun]
    cases hd : trailDecide Dir.buy sl0 price dist step with
    | none => exact ih sl0
    | some nsl =>
      cases ok with
      | false => exact ih sl0
      | true => exact List.Chain.cons (trailDecide_buy_lt hd) (ih nsl)

theorem trailRun_sell_chain (dist step : ℚ) (obs : List (ℚ × Bool)) :
    ∀ sl0, List.Chain (· > ·) sl0 (trailRun Dir.sell dist step sl0 obs) := by
  induction obs with
  | nil => exact fun sl0 => List.Chain.nil
  | cons o rest ih =>
    intro sl0
    obtain ⟨price, ok⟩ := o
    simp only [trailRun]
    cases hd : trailDecide Dir.sell sl0 price dist step with
    | none => exact ih sl0
    | some nsl =>
      cases ok with
      | false => exact ih sl0
      | true => exact List.Chain.cons (trailDecide_sell_gt hd) (ih nsl)

/-- C2: for any sequence of trailing-stop engine evaluations on one armed
ticket (any trail distance, step, initial stop-loss and observation
sequence), the stop-loss values the engine actually applies form a
monotonically favorable chain starting from the initial stop-loss: each
applied value is strictly greater than its predecessor for a BUY position
and strictly less for a SELL position — no applied update ever regresses
the stop-loss. -/
theorem trailing_stop_monotonic_ratchet (dist step sl0 : ℚ) (obs : List (ℚ × Bool)) :
    List.Chain (· < ·) sl0 (trailRun Dir.buy dist step sl0 obs) ∧
    List.Chain (· > ·) sl0 (trailRun Dir.sell dist step sl0 obs) :=
  ⟨trailRun_buy_chain dist step obs sl0, trailRun_sell_chain dist step obs sl0⟩

/-- C3: the breakeven elevator requests a stop modification exactly when the
position's profit has reached the configured threshold and its stop-loss is
unset (zero) or still on the unfavorable side of the entry price; any
requested stop-loss equals `entry + buffer` for BUY and `entry - buffer`
for SELL; a BUY gold position at entry 2000 with the repo's 0.02 buffer,
profit at the threshold and no stop-loss gets exactly 2000.02; and a
position whose stop-loss already satisfies the breakeven invariant gets no
gateway call. -/
theorem breakeven_elevator_spec (threshold bx bb : ℚ) (k : SymKind) (d : Dir)
    (entry profit sl : ℚ) :
    ((tryElevate threshold bx bb k d entry profit sl).isSome ↔
      threshold ≤ profit ∧ (sl = 0 ∨ unfavorableSide d entry sl)) ∧
    (∀ x, tryElevate threshold bx bb k d entry profit sl = some x →
      x = entry + dirSign d * breakevenBuffer bx bb k) ∧
    (sl ≠ 0 → ¬ unfavorableSide d entry sl →
      tryElevate threshold bx bb k d entry profit sl = none) ∧
    tryElevate 50 2 2 SymKind.xau Dir.buy 2000 50 0 = some (2000 + 2/100) := by
  refine ⟨?_, ?_, ?_, ?_⟩
  · cases d <;>
      simp [tryElevate, unfavorableSide, apply_ite Option.isSome, and_comm]
  · intro x hx
    cases d
    all_goals
      simp only [tryElevate] at hx
      split_ifs at hx with h1 h2
      simp_all [dirSign, unfavorableSide]
    linarith
  · intro hsl hside
    cases d
    all_goals
      simp only [tryElevate, unfavorableSide] at hside ⊢
      split_ifs with h1 h2 <;> tauto
  · simp [tryElevate, breakevenBuffer]
    norm_num

/-- Witness for C3: a BUY gold position at entry 2000 whose stop-loss 2005
is nonzero and already on the favorable side of entry gets no gateway call,
even at profit 60 above the threshold. -/
theorem breakeven_elevator_spec_witness :
    tryElevate 50 2 2 SymKind.xau Dir.buy 2000 60 2005 = none :=
  (breakeven_elevator_spec 50 2 2 SymKind.xau Dir.buy 2000 60 2005).2.2.1
    (by norm_num) (by simp only [unfavorableSide]; norm_num)

/-- C4: the reversal monitor closes a position exactly when the fetched
signal's action is BUY or SELL, differs from the position's direction, and
its confidence reaches the minimum; in every other case (same direction,
NO_TRADE — including an oracle failure degraded to NO_TRADE with
confidence 0 — or low confidence) no close is issued.  In particular, for
a BUY position with minimum confidence 78, a SELL signal at confidence 60
produces no close and a SELL signal at confidence 85 produces a close. -/
theorem reversal_monitor_gating (minConf : ℚ) (d : Dir) (s : Signal) :
    (checkReversal minConf d s = true ↔
      (s.action = Action.buy ∨ s.action = Action.sell) ∧
        dirAction d ≠ s.action ∧ minConf ≤ s.confidence) ∧
    checkReversal 78 Dir.buy ⟨Action.sell, 60⟩ = false ∧
    checkReversal 78 Dir.buy ⟨Action.sell, 85⟩ = true ∧
    checkReversal minConf d ⟨Action.noTrade, 0⟩ = false := by
  refine ⟨?_, ?_, ?_, ?_⟩
  · simp only [checkReversal, Bool.and_eq_true, decide_eq_true_eq]
    tauto
  · simp only [checkReversal, dirAction]
    norm_num
  · simp only [checkReversal, dirAction]
    norm_num
    decide
  · simp [checkReversal]

/-- C5 counterexample: a BUY ticket (entry 100) observed at profit 25 with
no stop-loss gets its milestone 20 recorded; on the next iteration the
still-open position is observed at profit -1, and the tracking entry is
deleted, so the stored lastProtectedLevel (read as 0 when absent) drops
from 20 to 0 — it decreases while the position remains open. -/
theorem last_protected_level_cex :
    profitMonitorStep Dir.buy 100 ⟨25, 101, 0, true⟩ none = some 20 ∧
    profitMonitorStep Dir.buy 100 ⟨-1, 101, 100, true⟩ (some 20) = none ∧
    ((none : Option ℚ).getD 0 < (some (20 : ℚ)).getD 0) := by
  refine ⟨?_, ?_, by norm_num⟩
  · simp only [profitMonitorStep, calculate_progressive_sl, PROFIT_THRESHOLD,
      rat_floor_eq_floor]
    norm_num
  · simp only [profitMonitorStep, PROFIT_THRESHOLD]
    norm_num

theorem profitMonitorStep_le (d : Dir) (entry : ℚ) (o : Obs) (st : Option ℚ)
    (h : 0 ≤ o.profit) :
    st.getD 0 ≤ (profitMonitorStep d entry o st).getD 0 := by
  simp only [profitMonitorStep]
  split_ifs with h1 h2 h3 h4
  · have : st.getD 0 < ((o.profit / PROFIT_THRESHOLD).floor : ℚ) * PROFIT_THRESHOLD := h2
    simp only [Option.getD_some]
    exact this.le
  · exact le_refl _
  · exact le_refl _
  · exact absurd h4.2 (not_lt.mpr h)
  · exact le_refl _

/-- C5 (amended): the stored lastProtectedLevel (read as 0 when absent) is
monotonically non-decreasing across iterations of the profit-monitoring
loop for as long as the ticket stays in the open-position snapshot AND its
observed profit stays non-negative; when a tracked position's profit turns
negative the code deletes the tracking entry, resetting the stored level
to 0. -/
theorem last_protected_level_monotone (d : Dir) (entry : ℚ) (st : Option ℚ)
    (obs : List Obs) (h : ∀ o ∈ obs, 0 ≤ o.profit) :
    st.getD 0 ≤ (profitMonitorRun d entry st obs).getD 0 := by
  induction obs generalizing st with
  | nil => exact le_refl _
  | cons o rest ih =>
    simp only [profitMonitorRun]
    refine le_trans (profitMonitorStep_le d entry o st (h o (by simp))) ?_
    exact ih (profitMonitorStep d entry o st) (fun x hx => h x (by simp [hx]))

/-- Witness for C5 (amended): a concrete two-iteration run at non-negative
profits 25 then 5 never lowers the stored level. -/
theorem last_protected_level_monotone_witness :
    ((none : Option ℚ).getD 0) ≤
      (profitMonitorRun Dir.buy 100 none [⟨25, 101, 0, true⟩, ⟨5, 101, 100, true⟩]).getD 0 :=
  last_protected_level_monotone Dir.buy 100 none [⟨25, 101, 0, true⟩, ⟨5, 101, 100, true⟩]
    (by intro o ho; simp only [List.mem_cons, List.mem_singleton] at ho
        rcases ho with h | h | h
        · rw [h]; norm_num
        · rw [h]; norm_num
        · exact absurd h (List.not_mem_nil o))

/-- C6: for an armed position with a non-negative current stop-loss, a
positive step, a positive market price and a non-negative trail distance,
the candidate stop-loss is `currentPrice - trailDistance` for BUY and
`currentPrice + trailDistance` for SELL, and the engine applies a
modification (with exactly the candidate value) if and only if the
candidate improves on the current stop-loss by at least one step. -/
theorem trailing_hysteresis (d : Dir) (sl price dist step : ℚ)
    (hsl : 0 ≤ sl) (hstep : 0 < step) (hprice : 0 < price) (hdist : 0 ≤ dist) :
    trailDecide d sl price dist step =
      if favorableBy d sl (trailCandidate d price dist) step
      then some (trailCandidate d price dist) else none := by
  cases d
  · simp only [trailDecide, trailCandidate, favorableBy]
    split_ifs with h1 h2 h3
    · rfl
    · exact absurd h1.2.1 h2
    · refine absurd ⟨by linarith, h3, ?_⟩ h1
      intro h0
      rw [h0] at h3
      linarith
    · rfl
  · simp only [trailDecide, trailCandidate, favorableBy]
    split_ifs with h1 h2 h3
    · rfl
    · exact absurd h1.2.1 h2
    · refine absurd ⟨by linarith, h3, by linarith⟩ h1
    · rfl

/-- Witness for C6, the spec's hysteresis scenario: armed BUY position with
current stop-loss 2001, trail distance 0.10 and step 0.01; at market price
2001.105 the candidate is 2001.005 (0.005 above the stop, below one step)
and no update is applied; at market price 2001.12 the candidate is 2001.02
and the update is applied with exactly that value. -/
theorem trailing_hysteresis_witness :
    trailDecide Dir.buy 2001 2001.105 (1/10) (1/100) = none ∧
    trailDecide Dir.buy 2001 2001.12 (1/10) (1/100) = some 2001.02 := by
  constructor
  · rw [trailing_hysteresis Dir.buy 2001 2001.105 (1/10) (1/100)
      (by norm_num) (by norm_num) (by norm_num) (by norm_num)]
    rw [if_neg]
    simp only [favorableBy, trailCandidate]
    norm_num
  · rw [trailing_hysteresis Dir.buy 2001 2001.12 (1/10) (1/100)
      (by norm_num) (by norm_num) (by norm_num) (by norm_num)]
    rw [if_pos]
    · simp only [trailCandidate]
      norm_num
    · simp only [favorableBy, trailCandidate]
      norm_num

/-- C7: with dynamic sizing enabled, the position sizer returns
`max(minLot, baseLot + ((equity - startingCapital) / capitalIncrement) *
lotIncrement)` rounded to one decimal place, and with the repository's
configuration (baseLot 1.0, startingCapital 10000, capitalIncrement 5000,
lotIncrement 0.5, minLot 1.0) an equity of 15000 yields exactly 1.5. -/
theorem lot_sizing_exactness (cfg : LotConfig) (equity : ℚ) (h : cfg.enabled = true) :
    calculate_lot_size cfg equity = sizerSpecFormula cfg equity ∧
    calculate_lot_size repoLotConfig 15000 = 3/2 := by
  constructor
  · simp only [calculate_lot_size, sizerSpecFormula, h]
    norm_num
  · simp only [calculate_lot_size, repoLotConfig, round1, roundHalfEven, rat_floor_eq_floor]
    norm_num

/-- Witness for C7 at the spec's scenario: equity 15000 under the repo
configuration sizes to exactly 1.5 lots. -/
theorem lot_sizing_exactness_witness :
    calculate_lot_size repoLotConfig 15000 = 3/2 :=
  (lot_sizing_exactness repoLotConfig 15000 rfl).2

/-- C8 counterexample: the position sizer performs no validation at all; at
the malformed (negative) equity -5000 it silently returns the volume 1.0
(the configured minimum lot) instead of failing with any ConfigError-class
result — the code has no error path. -/
theorem sizer_no_config_error_cex :
    calculate_lot_size repoLotConfig (-5000) = 1 := by
  simp only [calculate_lot_size, repoLotConfig, round1, roundHalfEven, rat_floor_eq_floor]
  norm_num

/-- C8 (amended): the position sizer has no error conditions: for every
negative equity it silently returns the configured minimum lot size (the
additional-lots term is then below zero, so the `max` clamps to the
minimum, and rounding a whole number is the identity). -/
theorem sizer_negative_equity_silent (equity : ℚ) (h : equity < 0) :
    calculate_lot_size repoLotConfig equity = repoLotConfig.min_lot_size := by
  simp only [calculate_lot_size, repoLotConfig]
  norm_num
  rw [max_eq_left (by linarith)]
  simp only [round1, roundHalfEven, rat_floor_eq_floor]
  norm_num

/-- Witness for C8 (amended) at equity -3000: the sizer silently returns
the minimum lot. -/
theorem sizer_negative_equity_silent_witness :
    calculate_lot_size repoLotConfig (-3000) = repoLotConfig.min_lot_size :=
  sizer_negative_equity_silent (-3000) (by norm_num)

/-- C10: a SELL position whose stop-loss field is unset (0) never receives
a trailing update, whatever positive market price is observed (the
candidate `currentPrice + trailDistance` is compared against 0 and never
passes), while a BUY position with unset stop-loss does receive the update
`currentPrice - trailDistance` as soon as that candidate clears zero by at
least one step. -/
theorem unset_sl_trailing_asymmetry (price dist step : ℚ)
    (hprice : 0 < price) (hdist : 0 ≤ dist) (hstep : 0 < step) :
    trailDecide Dir.sell 0 price dist step = none ∧
    (step ≤ price - dist → trailDecide Dir.buy 0 price dist step = some (price - dist)) := by
  constructor
  · simp only [trailDecide]
    rw [if_neg]
    intro hc
    linarith [hc.1]
  · intro h
    simp only [trailDecide]
    rw [if_pos ⟨by linarith, by linarith, ne_of_gt (by linarith)⟩]

/-- Witness for C10 at gold-scale values: price 2000, trail distance 0.10,
step 0.01; the SELL side with unset stop gets no update, the BUY side gets
its stop set to 1999.9. -/
theorem unset_sl_trailing_asymmetry_witness :
    trailDecide Dir.sell 0 2000 (1/10) (1/100) = none ∧
    trailDecide Dir.buy 0 2000 (1/10) (1/100) = some (2000 - 1/10) :=
  ⟨(unset_sl_trailing_asymmetry 2000 (1/10) (1/100) (by norm_num) (by norm_num)
      (by norm_num)).1,
   (unset_sl_trailing_asymmetry 2000 (1/10) (1/100) (by norm_num) (by norm_num)
      (by norm_num)).2 (by norm_num)⟩

end MT5
